import Mathlib

/-!
# tempo-operator: status refresh and monolithic admission validation

A shallow embedding of

* `internal/status/status.go` (`Refresh`), translated from the source, and
* the admission rules of `validateTempoMonolithic`, whose expected behaviour is
  fixed by the table in `internal/webhooks/tempomonolithic_webhook_test.go`.

Go values are modelled by pure Lean values.  The Go `error` interface is a type
parameter `ε`; a `nil` error is `none`.
-/

namespace TempoOperator

/-! ## `internal/status` -/

namespace Status

/-- The `Spec.Components.QueryFrontend.JaegerQuery` block: only `Enabled` is read. -/
structure JaegerQuerySpec where
  Enabled : Bool
  deriving DecidableEq, Repr

/-- The `Spec.Components.QueryFrontend` block. -/
structure QueryFrontendSpec where
  JaegerQuery : JaegerQuerySpec
  deriving DecidableEq, Repr

/-- The `Spec.Components` block. -/
structure ComponentsSpec where
  QueryFrontend : QueryFrontendSpec
  deriving DecidableEq, Repr

/-- The `Spec.Images` block: the two image references read by `Refresh`. -/
structure ImagesSpec where
  Tempo : String
  TempoQuery : String
  deriving DecidableEq, Repr

/-- The `Spec` of a `v1alpha1.Microservices` object, as far as `Refresh` reads it. -/
structure MicroservicesSpec where
  Images : ImagesSpec
  Components : ComponentsSpec
  deriving DecidableEq, Repr

/-- The type `v1alpha1.MicroservicesStatus`.  Its declaration is not part of the
sources at hand: the two version strings are the fields `Refresh` assigns, and
every remaining status field is carried in `Rest : σ`. -/
structure MicroservicesStatus (σ : Type) where
  TempoVersion : String
  TempoQueryVersion : String
  Rest : σ
  deriving DecidableEq, Repr

/-- The type `v1alpha1.Microservices`.  Everything outside `Status` that `Refresh`
does not read (type and object metadata, remaining spec fields) is carried in
`Other : ρ`. -/
structure Microservices (ρ σ : Type) where
  Other : ρ
  Spec : MicroservicesSpec
  Status : MicroservicesStatus σ
  deriving DecidableEq, Repr

/-- The generated `DeepCopy`: an independent value equal to its receiver. -/
def Microservices.DeepCopy {ρ σ : Type} (t : Microservices ρ σ) : Microservices ρ σ := t

/-- The library `github.com/novln/docker-parser`, taken as a parameter:
`Parse` either fails with an error or yields a reference `γ`, and `Tag` reads
the tag of a reference. -/
structure DockerParser (ε γ : Type) where
  Parse : String → Except ε γ
  Tag : γ → String

/-- The interface `StatusClient`: `PatchStatus ctx changed original` run in client
state `κ` returns an error (or `none` for `nil`) and the next client state. -/
structure StatusClient (ε κ M : Type) where
  PatchStatus : κ → M → M → Option ε × κ

/-- One recorded invocation `k.PatchStatus(ctx, changed, original)`. -/
structure PatchCall (M : Type) where
  changed : M
  original : M
  deriving DecidableEq, Repr

/-- Everything observable after `Refresh` returns: the returned pair, the strings
handed to `dockerparser.Parse` in order, the `PatchStatus` invocations in order,
the client state, and the values held by the caller's `tempo` and by the pointee
of `status`. -/
structure RefreshResult (ε κ M S : Type) where
  ret : Bool × Option ε
  parsed : List String
  calls : List (PatchCall M)
  client : κ
  tempo : M
  status : S

/-- The function `Refresh` of `internal/status/status.go`.  The local `patch` is
the tail of the function (the `PatchStatus` call and the two returns after it),
reached from both arms of the `if` on `JaegerQuery.Enabled`. -/
def Refresh {ε γ κ ρ σ : Type} (P : DockerParser ε γ)
    (k : StatusClient ε κ (Microservices ρ σ)) (c : κ)
    (tempo : Microservices ρ σ) (status : MicroservicesStatus σ) :
    RefreshResult ε κ (Microservices ρ σ) (MicroservicesStatus σ) :=
  let changed := tempo.DeepCopy
  let changed := { changed with Status := status }
  match P.Parse tempo.Spec.Images.Tempo with
  | .error err =>
    { ret := (false, some err), parsed := [tempo.Spec.Images.Tempo], calls := [],
      client := c, tempo := tempo, status := status }
  | .ok tempoImage =>
    let changed := { changed with Status := { changed.Status with TempoVersion := P.Tag tempoImage } }
    let patch := fun (parsed : List String) (changed : Microservices ρ σ) =>
      match k.PatchStatus c changed tempo with
      | (some err, c') =>
        ({ ret := (true, some err), parsed := parsed, calls := [⟨changed, tempo⟩],
           client := c', tempo := tempo, status := status } :
          RefreshResult ε κ (Microservices ρ σ) (MicroservicesStatus σ))
      | (none, c') =>
        { ret := (false, none), parsed := parsed, calls := [⟨changed, tempo⟩],
          client := c', tempo := tempo, status := status }
    if tempo.Spec.Components.QueryFrontend.JaegerQuery.Enabled then
      match P.Parse tempo.Spec.Images.TempoQuery with
      | .error err =>
        { ret := (false, some err),
          parsed := [tempo.Spec.Images.Tempo, tempo.Spec.Images.TempoQuery], calls := [],
          client := c, tempo := tempo, status := status }
      | .ok tempoQueryImage =>
        patch [tempo.Spec.Images.Tempo, tempo.Spec.Images.TempoQuery]
          { changed with
            Status := { changed.Status with TempoQueryVersion := P.Tag tempoQueryImage } }
    else
      patch [tempo.Spec.Images.Tempo] changed

/-- The status the claims call "derived by Refresh": the candidate with
`TempoVersion` set to the tag parsed from `Spec.Images.Tempo` and, when Jaeger
Query is enabled, `TempoQueryVersion` set to the tag parsed from
`Spec.Images.TempoQuery`; `none` when a needed image does not parse. -/
def derivedStatus {ε γ ρ σ : Type} (P : DockerParser ε γ)
    (tempo : Microservices ρ σ) (status : MicroservicesStatus σ) :
    Option (MicroservicesStatus σ) :=
  match P.Parse tempo.Spec.Images.Tempo with
  | .error _ => none
  | .ok t =>
    if tempo.Spec.Components.QueryFrontend.JaegerQuery.Enabled then
      match P.Parse tempo.Spec.Images.TempoQuery with
      | .error _ => none
      | .ok q => some { status with TempoVersion := P.Tag t, TempoQueryVersion := P.Tag q }
    else some { status with TempoVersion := P.Tag t }

/-! ### Sample instances used to evaluate `Refresh` -/

/-- A reference parser defined on a handful of image strings, giving on each the
tag the reference grammar assigns; every other string is rejected. -/
def sampleParser : DockerParser String String where
  Parse := fun s =>
    if s = "docker.io/grafana/tempo:2.1.1" then .ok "2.1.1"
    else if s = "docker.io/grafana/tempo:2.2.0" then .ok "2.2.0"
    else if s = "docker.io/grafana/tempo-query:2.1.1" then .ok "2.1.1"
    else .error ("invalid reference: " ++ s)
  Tag := fun r => r

/-- A client whose every `PatchStatus` succeeds; its state counts the writes. -/
def okClient (M : Type) : StatusClient String Nat M where
  PatchStatus := fun n _ _ => (none, n + 1)

/-- A client whose every `PatchStatus` is rejected with a conflict. -/
def conflictClient (M : Type) : StatusClient String Nat M where
  PatchStatus := fun n _ _ => (some "conflict", n + 1)

/-- A client that answers every `PatchStatus` with `answer` and whose state is the
log of the calls it received, oldest first. -/
def loggingClient (M : Type) (answer : Option String) :
    StatusClient String (List (PatchCall M)) M where
  PatchStatus := fun log changed original => (answer, log ++ [⟨changed, original⟩])

/-- A stored object whose status already shows the tag of its Tempo image. -/
def storedTempo : Microservices Unit Unit where
  Other := ()
  Spec :=
    { Images := { Tempo := "docker.io/grafana/tempo:2.1.1", TempoQuery := "" }
      Components := { QueryFrontend := { JaegerQuery := { Enabled := false } } } }
  Status := { TempoVersion := "2.1.1", TempoQueryVersion := "", Rest := () }

/-- A stored object whose status lags behind its Tempo image. -/
def staleTempo : Microservices Unit Unit where
  Other := ()
  Spec :=
    { Images := { Tempo := "docker.io/grafana/tempo:2.2.0", TempoQuery := "" }
      Components := { QueryFrontend := { JaegerQuery := { Enabled := false } } } }
  Status := { TempoVersion := "2.1.1", TempoQueryVersion := "", Rest := () }

/-- A stored object with Jaeger Query enabled and an empty Tempo Query image. -/
def brokenQueryTempo : Microservices Unit Unit where
  Other := ()
  Spec :=
    { Images := { Tempo := "docker.io/grafana/tempo:2.1.1", TempoQuery := "" }
      Components := { QueryFrontend := { JaegerQuery := { Enabled := true } } } }
  Status := { TempoVersion := "2.1.1", TempoQueryVersion := "2.1.1", Rest := () }

/-- A stored object with Jaeger Query enabled and both images well formed. -/
def queryTempo : Microservices Unit Unit where
  Other := ()
  Spec :=
    { Images := { Tempo := "docker.io/grafana/tempo:2.2.0",
                  TempoQuery := "docker.io/grafana/tempo-query:2.1.1" }
      Components := { QueryFrontend := { JaegerQuery := { Enabled := true } } } }
  Status := { TempoVersion := "", TempoQueryVersion := "", Rest := () }

end Status

/-! ## `internal/webhooks`: validation of `TempoMonolithic` -/

namespace Webhooks

/-- A Go slice as `reflect.DeepEqual` (hence `require.Equal`) sees it: `none` is
the nil slice, `some xs` a non-nil slice holding `xs`. -/
abbrev Slice (α : Type) := Option (List α)

/-- The elements of a slice; the nil slice has none. -/
def Slice.elems {α : Type} : Slice α → List α
  | none => []
  | some xs => xs

/-- The type `configv1alpha1.OpenShiftFeatureGates`, as the test table sets it. -/
structure OpenShiftFeatureGates where
  OpenShiftRoute : Bool := false
  deriving DecidableEq, Repr

/-- The type `configv1alpha1.FeatureGates`, as the test table sets it. -/
structure FeatureGates where
  OpenShift : OpenShiftFeatureGates := {}
  PrometheusOperator : Bool := false
  GrafanaOperator : Bool := false
  deriving DecidableEq, Repr

/-- The type `configv1alpha1.ProjectConfig`, as the test table sets it. -/
structure ProjectConfig where
  Gates : FeatureGates := {}
  deriving DecidableEq, Repr

/-- The type `v1alpha1.MonolithicJaegerUIIngressSpec`. -/
structure MonolithicJaegerUIIngressSpec where
  Enabled : Bool := false
  deriving DecidableEq, Repr

/-- The type `v1alpha1.MonolithicJaegerUIRouteSpec`. -/
structure MonolithicJaegerUIRouteSpec where
  Enabled : Bool := false
  deriving DecidableEq, Repr

/-- The type `v1alpha1.MonolithicJaegerUISpec`; a nil pointer is `none`. -/
structure MonolithicJaegerUISpec where
  Enabled : Bool := false
  Ingress : Option MonolithicJaegerUIIngressSpec := none
  Route : Option MonolithicJaegerUIRouteSpec := none
  deriving DecidableEq, Repr

/-- The type `v1alpha1.MonolithicObservabilityMetricsServiceMonitorsSpec`. -/
structure MonolithicObservabilityMetricsServiceMonitorsSpec where
  Enabled : Bool := false
  deriving DecidableEq, Repr

/-- The type `v1alpha1.MonolithicObservabilityMetricsPrometheusRulesSpec`. -/
structure MonolithicObservabilityMetricsPrometheusRulesSpec where
  Enabled : Bool := false
  deriving DecidableEq, Repr

/-- The type `v1alpha1.MonolithicObservabilityMetricsSpec`. -/
structure MonolithicObservabilityMetricsSpec where
  ServiceMonitors : Option MonolithicObservabilityMetricsServiceMonitorsSpec := none
  PrometheusRules : Option MonolithicObservabilityMetricsPrometheusRulesSpec := none
  deriving DecidableEq, Repr

/-- The type `v1alpha1.MonolithicObservabilityGrafanaDataSourceSpec`. -/
structure MonolithicObservabilityGrafanaDataSourceSpec where
  Enabled : Bool := false
  deriving DecidableEq, Repr

/-- The type `v1alpha1.MonolithicObservabilityGrafanaSpec`. -/
structure MonolithicObservabilityGrafanaSpec where
  DataSource : Option MonolithicObservabilityGrafanaDataSourceSpec := none
  deriving DecidableEq, Repr

/-- The type `v1alpha1.MonolithicObservabilitySpec`. -/
structure MonolithicObservabilitySpec where
  Metrics : Option MonolithicObservabilityMetricsSpec := none
  Grafana : Option MonolithicObservabilityGrafanaSpec := none
  deriving DecidableEq, Repr

/-- The type `v1alpha1.ExtraConfigSpec`: `Tempo` holds the raw JSON override. -/
structure ExtraConfigSpec where
  Tempo : String := ""
  deriving DecidableEq, Repr

/-- The type `v1alpha1.TempoMonolithicSpec`, as the test table sets it. -/
structure TempoMonolithicSpec where
  JaegerUI : Option MonolithicJaegerUISpec := none
  Observability : Option MonolithicObservabilitySpec := none
  ExtraConfig : Option ExtraConfigSpec := none
  deriving DecidableEq, Repr

/-- The type `v1alpha1.TempoMonolithic`: name, namespace and spec. -/
structure TempoMonolithic where
  Name : String := ""
  Namespace : String := ""
  Spec : TempoMonolithicSpec := {}
  deriving DecidableEq, Repr

/-- The error types of `k8s.io/apimachinery/pkg/util/validation/field`. -/
inductive ErrorType where
  | ErrorTypeNotFound
  | ErrorTypeRequired
  | ErrorTypeDuplicate
  | ErrorTypeInvalid
  | ErrorTypeNotSupported
  | ErrorTypeForbidden
  deriving DecidableEq, Repr

/-- A `field.Error`: its type (the Go field `Type`), the dotted path of the field, the rejected value
(a boolean in every rule here) and the detail message. -/
structure FieldError where
  Type_ : ErrorType
  Field : String
  BadValue : Bool
  Detail : String
  deriving DecidableEq, Repr

/-- A `field.Path` built by `field.NewPath(name, moreNames...)`: its segments. -/
abbrev Path := List String

/-- The method `(*field.Path).String` on a path of plain names: the segments
joined by dots. -/
def Path.String (p : Path) : String := ".".intercalate p

/-- The constructor `field.Invalid(path, value, detail)`. -/
def Invalid (path : Path) (value : Bool) (detail : String) : FieldError :=
  { Type_ := .ErrorTypeInvalid, Field := Path.String path, BadValue := value, Detail := detail }

/-- Presence check and flag: `spec.JaegerUI != nil && spec.JaegerUI.Enabled`. -/
def jaegerUIEnabled (spec : TempoMonolithicSpec) : Bool :=
  match spec.JaegerUI with
  | some ui => ui.Enabled
  | none => false

/-- Presence checks and flag of `spec.JaegerUI.Ingress.Enabled`. -/
def ingressEnabled (spec : TempoMonolithicSpec) : Bool :=
  match spec.JaegerUI with
  | some ui =>
    match ui.Ingress with
    | some ingress => ingress.Enabled
    | none => false
  | none => false

/-- Presence checks and flag of `spec.JaegerUI.Route.Enabled`. -/
def routeEnabled (spec : TempoMonolithicSpec) : Bool :=
  match spec.JaegerUI with
  | some ui =>
    match ui.Route with
    | some route => route.Enabled
    | none => false
  | none => false

/-- Presence checks and flag of `spec.Observability.Metrics.ServiceMonitors.Enabled`. -/
def serviceMonitorsEnabled (spec : TempoMonolithicSpec) : Bool :=
  match spec.Observability with
  | some obs =>
    match obs.Metrics with
    | some metrics =>
      match metrics.ServiceMonitors with
      | some sm => sm.Enabled
      | none => false
    | none => false
  | none => false

/-- Presence checks and flag of `spec.Observability.Metrics.PrometheusRules.Enabled`. -/
def prometheusRulesEnabled (spec : TempoMonolithicSpec) : Bool :=
  match spec.Observability with
  | some obs =>
    match obs.Metrics with
    | some metrics =>
      match metrics.PrometheusRules with
      | some pr => pr.Enabled
      | none => false
    | none => false
  | none => false

/-- Presence checks and flag of `spec.Observability.Grafana.DataSource.Enabled`. -/
def dataSourceEnabled (spec : TempoMonolithicSpec) : Bool :=
  match spec.Observability with
  | some obs =>
    match obs.Grafana with
    | some grafana =>
      match grafana.DataSource with
      | some ds => ds.Enabled
      | none => false
    | none => false
  | none => false

/-- The path `spec.jaegerui.ingress.enabled`. -/
def ingressEnabledPath : Path := ["spec", "jaegerui", "ingress", "enabled"]

/-- The path `spec.jaegerui.route.enabled`. -/
def routeEnabledPath : Path := ["spec", "jaegerui", "route", "enabled"]

/-- The path `spec.observability.metrics.serviceMonitors.enabled`. -/
def serviceMonitorsEnabledPath : Path :=
  ["spec", "observability", "metrics", "serviceMonitors", "enabled"]

/-- The path `spec.observability.metrics.prometheusRules.enabled`. -/
def prometheusRulesEnabledPath : Path :=
  ["spec", "observability", "metrics", "prometheusRules", "enabled"]

/-- The path `spec.observability.grafana.dataSource.enabled`. -/
def dataSourceEnabledPath : Path :=
  ["spec", "observability", "grafana", "dataSource", "enabled"]

/-- The warning attached to a present `ExtraConfig`. -/
def extraConfigWarning : String :=
  "overriding Tempo configuration could potentially break the deployment, use it carefully"

/-- What a rule reports when its condition holds: a field error or a warning. -/
inductive Failure where
  | error (e : FieldError)
  | warning (w : String)
  deriving DecidableEq, Repr

/-- A row of the rule table: the condition checked on the feature gates and the
specification, and the failure produced when it holds. -/
structure Rule where
  condition : ProjectConfig → TempoMonolithicSpec → Bool
  failure : Failure

/-- The errors a rule contributes on a given input. -/
def Rule.errors (r : Rule) (cfg : ProjectConfig) (spec : TempoMonolithicSpec) :
    List FieldError :=
  match r.failure with
  | .error e => if r.condition cfg spec then [e] else []
  | .warning _ => []

/-- The warnings a rule contributes on a given input. -/
def Rule.warnings (r : Rule) (cfg : ProjectConfig) (spec : TempoMonolithicSpec) :
    List String :=
  match r.failure with
  | .error _ => []
  | .warning w => if r.condition cfg spec then [w] else []

/-- Modelled from the spec: the rule table evaluated by `validateTempoMonolithic`,
a method of `monolithicValidator` whose body is not among the sources (only its
test table is).  The rows are those of the rule table of the spec (section 4.1)
in the declared order, parent and gate rules before the `ExtraConfig` warning,
instantiated with the paths and messages of the test table.  The condition of the
gate rule of the route is that of scenario 2 of the spec (route enabled, Jaeger UI
enabled, gate off) and the condition of the sibling rule is that of scenario 3
(PrometheusRules enabled, serviceMonitors disabled, gate on); the test table
requires both, since it expects a single error for a route under a disabled
Jaeger UI with the gate off, and for PrometheusRules without serviceMonitors with
the gate off. -/
def ruleTable : List Rule :=
  [ { condition := fun _ spec => ingressEnabled spec && !jaegerUIEnabled spec
      failure := .error (Invalid ingressEnabledPath true
        "Jaeger UI must be enabled to create an ingress for Jaeger UI") },
    { condition := fun _ spec => routeEnabled spec && !jaegerUIEnabled spec
      failure := .error (Invalid routeEnabledPath true
        "Jaeger UI must be enabled to create a route for Jaeger UI") },
    { condition := fun cfg spec =>
        routeEnabled spec && jaegerUIEnabled spec && !cfg.Gates.OpenShift.OpenShiftRoute
      failure := .error (Invalid routeEnabledPath true
        "the openshiftRoute feature gate must be enabled to create a route for Jaeger UI") },
    { condition := fun cfg spec => serviceMonitorsEnabled spec && !cfg.Gates.PrometheusOperator
      failure := .error (Invalid serviceMonitorsEnabledPath true
        "the prometheusOperator feature gate must be enabled to create ServiceMonitors for Tempo components") },
    { condition := fun cfg spec => prometheusRulesEnabled spec && !cfg.Gates.PrometheusOperator
      failure := .error (Invalid prometheusRulesEnabledPath true
        "the prometheusOperator feature gate must be enabled to create PrometheusRules for Tempo components") },
    { condition := fun cfg spec =>
        prometheusRulesEnabled spec && cfg.Gates.PrometheusOperator &&
          !serviceMonitorsEnabled spec
      failure := .error (Invalid prometheusRulesEnabledPath true
        "serviceMonitors must be enabled to create PrometheusRules (the rules alert based on collected metrics)") },
    { condition := fun cfg spec => dataSourceEnabled spec && !cfg.Gates.GrafanaOperator
      failure := .error (Invalid dataSourceEnabledPath true
        "the grafanaOperator feature gate must be enabled to create a data source for Tempo") },
    { condition := fun _ spec => spec.ExtraConfig.isSome
      failure := .warning extraConfigWarning } ]

/-- Modelled from the spec: the method `validateTempoMonolithic` of
`monolithicValidator`, whose body is not among the sources.  Every rule of
`ruleTable` is evaluated, none short-circuits another, and the failures are
appended in the order of the table; both results are non-nil slices, as the test
table compares them with `admission.Warnings{}` and `field.ErrorList{}`. -/
def validateTempoMonolithic (ctrlConfig : ProjectConfig) (tempo : TempoMonolithic) :
    Slice String × Slice FieldError :=
  (some (ruleTable.flatMap fun r => r.warnings ctrlConfig tempo.Spec),
   some (ruleTable.flatMap fun r => r.errors ctrlConfig tempo.Spec))

/-- The prerequisites of every enabled feature: its parent enabled, its feature
gate on, its prerequisite sibling enabled. -/
def prerequisitesMet (cfg : ProjectConfig) (spec : TempoMonolithicSpec) : Prop :=
  (ingressEnabled spec = true → jaegerUIEnabled spec = true) ∧
  (routeEnabled spec = true →
    jaegerUIEnabled spec = true ∧ cfg.Gates.OpenShift.OpenShiftRoute = true) ∧
  (serviceMonitorsEnabled spec = true → cfg.Gates.PrometheusOperator = true) ∧
  (prometheusRulesEnabled spec = true →
    cfg.Gates.PrometheusOperator = true ∧ serviceMonitorsEnabled spec = true) ∧
  (dataSourceEnabled spec = true → cfg.Gates.GrafanaOperator = true)

instance (cfg : ProjectConfig) (spec : TempoMonolithicSpec) :
    Decidable (prerequisitesMet cfg spec) := by
  unfold prerequisitesMet
  infer_instance

end Webhooks

end TempoOperator

/-! # Theorems -/

namespace TempoOperator
namespace Status

section RefreshLemmas

variable {ε γ κ ρ σ : Type}

/-- When the needed images parse, `Refresh` issues the single call
`PatchStatus(changed, &tempo)` with the derived status in `changed`. -/
theorem Refresh_calls_of_derived (P : DockerParser ε γ)
    (k : StatusClient ε κ (Microservices ρ σ)) (c : κ)
    (tempo : Microservices ρ σ) (status d : MicroservicesStatus σ)
    (h : derivedStatus P tempo status = some d) :
    (Refresh P k c tempo status).calls = [⟨{ tempo with Status := d }, tempo⟩] := by
  unfold derivedStatus at h
  unfold Refresh Microservices.DeepCopy
  cases hT : P.Parse tempo.Spec.Images.Tempo with
  | error e => simp [hT] at h
  | ok t =>
    cases hE : tempo.Spec.Components.QueryFrontend.JaegerQuery.Enabled with
    | false =>
      simp only [hT, hE] at h ⊢
      simp at h
      subst h
      simp
      split <;> simp
    | true =>
      cases hQ : P.Parse tempo.Spec.Images.TempoQuery with
      | error e => simp [hT, hE, hQ] at h
      | ok q =>
        simp only [hT, hE, hQ] at h ⊢
        simp at h
        subst h
        simp
        split <;> simp

/-- When the needed images parse, the pair returned by `Refresh` is decided by the
answer of the single `PatchStatus` call: `(true, err)` on an error, `(false, nil)`
otherwise. -/
theorem Refresh_ret_of_derived (P : DockerParser ε γ)
    (k : StatusClient ε κ (Microservices ρ σ)) (c : κ)
    (tempo : Microservices ρ σ) (status d : MicroservicesStatus σ)
    (h : derivedStatus P tempo status = some d) :
    (Refresh P k c tempo status).ret =
      ((k.PatchStatus c { tempo with Status := d } tempo).1.isSome,
       (k.PatchStatus c { tempo with Status := d } tempo).1) := by
  unfold derivedStatus at h
  unfold Refresh Microservices.DeepCopy
  cases hT : P.Parse tempo.Spec.Images.Tempo with
  | error e => simp [hT] at h
  | ok t =>
    cases hE : tempo.Spec.Components.QueryFrontend.JaegerQuery.Enabled with
    | false =>
      simp only [hT, hE] at h ⊢
      simp at h
      subst h
      simp
      split <;> simp_all
    | true =>
      cases hQ : P.Parse tempo.Spec.Images.TempoQuery with
      | error e => simp [hT, hE, hQ] at h
      | ok q =>
        simp only [hT, hE, hQ] at h ⊢
        simp at h
        subst h
        simp
        split <;> simp_all

/-- When a needed image does not parse, `Refresh` calls `PatchStatus` not at all. -/
theorem Refresh_calls_of_not_derived (P : DockerParser ε γ)
    (k : StatusClient ε κ (Microservices ρ σ)) (c : κ)
    (tempo : Microservices ρ σ) (status : MicroservicesStatus σ)
    (h : derivedStatus P tempo status = none) :
    (Refresh P k c tempo status).calls = [] := by
  unfold derivedStatus at h
  unfold Refresh Microservices.DeepCopy
  cases hT : P.Parse tempo.Spec.Images.Tempo with
  | error e => simp
  | ok t =>
    cases hE : tempo.Spec.Components.QueryFrontend.JaegerQuery.Enabled with
    | false => simp [hT, hE] at h
    | true =>
      cases hQ : P.Parse tempo.Spec.Images.TempoQuery with
      | error e => simp
      | ok q => simp [hT, hE, hQ] at h

/-- When the needed images parse, the client state left by `Refresh` is the one
returned by the single `PatchStatus` call, applied in the state `Refresh` was
given. -/
theorem Refresh_client_of_derived (P : DockerParser ε γ)
    (k : StatusClient ε κ (Microservices ρ σ)) (c : κ)
    (tempo : Microservices ρ σ) (status d : MicroservicesStatus σ)
    (h : derivedStatus P tempo status = some d) :
    (Refresh P k c tempo status).client =
      (k.PatchStatus c { tempo with Status := d } tempo).2 := by
  unfold derivedStatus at h
  unfold Refresh Microservices.DeepCopy
  cases hT : P.Parse tempo.Spec.Images.Tempo with
  | error e => simp [hT] at h
  | ok t =>
    cases hE : tempo.Spec.Components.QueryFrontend.JaegerQuery.Enabled with
    | false =>
      simp only [hT, hE] at h ⊢
      simp at h
      subst h
      simp
      split <;> simp_all
    | true =>
      cases hQ : P.Parse tempo.Spec.Images.TempoQuery with
      | error e => simp [hT, hE, hQ] at h
      | ok q =>
        simp only [hT, hE, hQ] at h ⊢
        simp at h
        subst h
        simp
        split <;> simp_all

/-- With Jaeger Query disabled and the Tempo image parsing, `Refresh` hands the
parser `Spec.Images.Tempo` and nothing else. -/
theorem Refresh_parsed_of_disabled (P : DockerParser ε γ)
    (k : StatusClient ε κ (Microservices ρ σ)) (c : κ)
    (tempo : Microservices ρ σ) (status : MicroservicesStatus σ) (t : γ)
    (hT : P.Parse tempo.Spec.Images.Tempo = .ok t)
    (hE : tempo.Spec.Components.QueryFrontend.JaegerQuery.Enabled = false) :
    (Refresh P k c tempo status).parsed = [tempo.Spec.Images.Tempo] := by
  unfold Refresh Microservices.DeepCopy
  simp only [hT, hE, Bool.false_eq_true, if_false]
  split <;> rfl

end RefreshLemmas


section RefreshClaims

variable {ε γ κ ρ σ : Type}

/-- C1 (counterexample): on a stored object whose status already equals the derived
status, with every image parsing, `Refresh` still calls `PatchStatus` once, so the
claimed "zero calls and `(false, nil)`" fails; with a rejecting client it returns
`(true, conflict)`; and a second pass over the object written by a successful
first pass writes again. -/
theorem Refresh_unchanged_status_is_patched_anyway :
    derivedStatus sampleParser storedTempo storedTempo.Status = some storedTempo.Status ∧
    (Refresh sampleParser (okClient _) 0 storedTempo storedTempo.Status).calls
      = [⟨storedTempo, storedTempo⟩] ∧
    (Refresh sampleParser (okClient _) 0 storedTempo storedTempo.Status).client = 1 ∧
    ¬ ((Refresh sampleParser (okClient _) 0 storedTempo storedTempo.Status).calls = [] ∧
       (Refresh sampleParser (okClient _) 0 storedTempo storedTempo.Status).ret = (false, none)) ∧
    (Refresh sampleParser (conflictClient _) 0 storedTempo storedTempo.Status).ret
      = (true, some "conflict") ∧
    (∀ stored ∈ ((Refresh sampleParser (okClient _) 0 staleTempo staleTempo.Status).calls.map
        (fun call => call.changed)),
      (Refresh sampleParser (okClient _) 1 stored stored.Status).calls.length = 1) := by
  decide

/-- C1 (amended): when the needed images parse and the derived status equals the
stored `tempo.Status`, `Refresh` makes exactly one `PatchStatus` call, whose
desired object and original object are both the stored object, and it returns
`(false, nil)` when that call reports no error and `(true, e)` when it reports
the error `e`.  This holds in every client state, hence on a second pass as well. -/
theorem Refresh_unchanged_status_patches_once (P : DockerParser ε γ)
    (k : StatusClient ε κ (Microservices ρ σ)) (c : κ)
    (tempo : Microservices ρ σ) (status : MicroservicesStatus σ)
    (h : derivedStatus P tempo status = some tempo.Status) :
    (Refresh P k c tempo status).calls = [⟨tempo, tempo⟩] ∧
    ((k.PatchStatus c tempo tempo).1 = none →
      (Refresh P k c tempo status).ret = (false, none)) ∧
    (∀ e, (k.PatchStatus c tempo tempo).1 = some e →
      (Refresh P k c tempo status).ret = (true, some e)) := by
  have hc := Refresh_calls_of_derived P k c tempo status tempo.Status h
  have hr := Refresh_ret_of_derived P k c tempo status tempo.Status h
  have heta : ({ tempo with Status := tempo.Status } : Microservices ρ σ) = tempo := rfl
  rw [heta] at hr
  refine ⟨hc, fun hnone => ?_, fun e hsome => ?_⟩
  · rw [hr, hnone]
    rfl
  · rw [hr, hsome]
    rfl

/-- Witness of C1 (amended) on `storedTempo` with a client that accepts the write. -/
theorem Refresh_unchanged_status_patches_once_witness :
    (Refresh sampleParser (okClient _) 0 storedTempo storedTempo.Status).calls
      = [⟨storedTempo, storedTempo⟩] ∧
    (Refresh sampleParser (okClient _) 0 storedTempo storedTempo.Status).ret = (false, none) :=
  ⟨(Refresh_unchanged_status_patches_once sampleParser (okClient _) 0 storedTempo
      storedTempo.Status (by decide)).1,
   (Refresh_unchanged_status_patches_once sampleParser (okClient _) 0 storedTempo
      storedTempo.Status (by decide)).2.1 (by decide)⟩

/-- C2 (counterexample): on a stored object whose status differs from the derived
one, with every image parsing and `PatchStatus` succeeding, `Refresh` returns
`(false, nil)`, not `(true, nil)`. -/
theorem Refresh_successful_write_returns_false :
    (∃ d, derivedStatus sampleParser staleTempo staleTempo.Status = some d ∧
      d ≠ staleTempo.Status ∧
      ((okClient _).PatchStatus 0 { staleTempo with Status := d } staleTempo).1 = none) ∧
    (Refresh sampleParser (okClient _) 0 staleTempo staleTempo.Status).calls.length = 1 ∧
    (Refresh sampleParser (okClient _) 0 staleTempo staleTempo.Status).ret = (false, none) ∧
    (Refresh sampleParser (okClient _) 0 staleTempo staleTempo.Status).ret ≠ (true, none) := by
  refine ⟨⟨{ staleTempo.Status with TempoVersion := "2.2.0" }, ?_, ?_, ?_⟩, ?_, ?_, ?_⟩ <;> decide

/-- C2 (amended): when the needed images parse, the derived status differs from
the stored `tempo.Status`, and the single `PatchStatus` call returns no error,
`Refresh` returns `(false, nil)`: the boolean is `false` with a nil error, after
exactly one `PatchStatus` call carrying the derived status. -/
theorem Refresh_changed_status_success (P : DockerParser ε γ)
    (k : StatusClient ε κ (Microservices ρ σ)) (c : κ)
    (tempo : Microservices ρ σ) (status d : MicroservicesStatus σ)
    (h : derivedStatus P tempo status = some d) (_hne : d ≠ tempo.Status)
    (hok : (k.PatchStatus c { tempo with Status := d } tempo).1 = none) :
    (Refresh P k c tempo status).ret = (false, none) ∧
    (Refresh P k c tempo status).calls = [⟨{ tempo with Status := d }, tempo⟩] := by
  refine ⟨?_, Refresh_calls_of_derived P k c tempo status d h⟩
  rw [Refresh_ret_of_derived P k c tempo status d h, hok]
  rfl

/-- Witness of C2 (amended) on `staleTempo` with a client that accepts the write. -/
theorem Refresh_changed_status_success_witness :
    (Refresh sampleParser (okClient _) 0 staleTempo staleTempo.Status).ret = (false, none) ∧
    (Refresh sampleParser (okClient _) 0 staleTempo staleTempo.Status).calls
      = [⟨{ staleTempo with Status := { staleTempo.Status with TempoVersion := "2.2.0" } },
          staleTempo⟩] :=
  Refresh_changed_status_success sampleParser (okClient _) 0 staleTempo staleTempo.Status
    { staleTempo.Status with TempoVersion := "2.2.0" } (by decide) (by decide) (by decide)

/-- C3: if parsing `Spec.Images.Tempo` fails, or Jaeger Query is enabled and parsing
`Spec.Images.TempoQuery` fails, then `Refresh` returns the error of the failed
parse (with `false`), makes no `PatchStatus` call, and leaves the client state as
it found it. -/
theorem Refresh_parse_failure (P : DockerParser ε γ)
    (k : StatusClient ε κ (Microservices ρ σ)) (c : κ)
    (tempo : Microservices ρ σ) (status : MicroservicesStatus σ)
    (h : (∃ e, P.Parse tempo.Spec.Images.Tempo = .error e) ∨
         (tempo.Spec.Components.QueryFrontend.JaegerQuery.Enabled = true ∧
          ∃ e, P.Parse tempo.Spec.Images.TempoQuery = .error e)) :
    (Refresh P k c tempo status).calls = [] ∧
    (Refresh P k c tempo status).client = c ∧
    ∃ e, (Refresh P k c tempo status).ret = (false, some e) ∧
      (P.Parse tempo.Spec.Images.Tempo = .error e ∨
       ((∃ t, P.Parse tempo.Spec.Images.Tempo = .ok t) ∧
        tempo.Spec.Components.QueryFrontend.JaegerQuery.Enabled = true ∧
        P.Parse tempo.Spec.Images.TempoQuery = .error e)) := by
  unfold Refresh Microservices.DeepCopy
  cases hT : P.Parse tempo.Spec.Images.Tempo with
  | error e => exact ⟨rfl, rfl, e, rfl, Or.inl rfl⟩
  | ok t =>
    rcases h with ⟨e, he⟩ | ⟨hE, e, he⟩
    · rw [hT] at he; cases he
    · simp only [hE, he, if_true]
      exact ⟨trivial, trivial, e, rfl, Or.inr ⟨⟨t, rfl⟩, trivial, rfl⟩⟩

/-- Witness of C3 on an object with Jaeger Query enabled and an empty Tempo Query
image. -/
theorem Refresh_parse_failure_witness :
    (Refresh sampleParser (okClient _) 0 brokenQueryTempo brokenQueryTempo.Status).calls = [] ∧
    (Refresh sampleParser (okClient _) 0 brokenQueryTempo brokenQueryTempo.Status).client = 0 ∧
    ∃ e, (Refresh sampleParser (okClient _) 0 brokenQueryTempo brokenQueryTempo.Status).ret
        = (false, some e) ∧
      (sampleParser.Parse brokenQueryTempo.Spec.Images.Tempo = .error e ∨
       ((∃ t, sampleParser.Parse brokenQueryTempo.Spec.Images.Tempo = .ok t) ∧
        brokenQueryTempo.Spec.Components.QueryFrontend.JaegerQuery.Enabled = true ∧
        sampleParser.Parse brokenQueryTempo.Spec.Images.TempoQuery = .error e)) :=
  Refresh_parse_failure sampleParser (okClient _) 0 brokenQueryTempo brokenQueryTempo.Status
    (Or.inr ⟨rfl, "invalid reference: ", rfl⟩)

/-- C4: whenever `Refresh` attempts a write (the needed images parse, so the
object carrying the derived status `d` is sent) and `PatchStatus` answers that
write with an error `e`, `Refresh` returns `(true, e)` with that very error; the
write is the only `PatchStatus` call, and the client is left in the state that
one call produced, so no further call was made. -/
theorem Refresh_patch_error (P : DockerParser ε γ)
    (k : StatusClient ε κ (Microservices ρ σ)) (c : κ)
    (tempo : Microservices ρ σ) (status d : MicroservicesStatus σ) (e : ε)
    (h : derivedStatus P tempo status = some d)
    (herr : (k.PatchStatus c { tempo with Status := d } tempo).1 = some e) :
    (Refresh P k c tempo status).ret = (true, some e) ∧
    (Refresh P k c tempo status).calls = [⟨{ tempo with Status := d }, tempo⟩] ∧
    (Refresh P k c tempo status).client =
      (k.PatchStatus c { tempo with Status := d } tempo).2 := by
  refine ⟨?_, Refresh_calls_of_derived P k c tempo status d h,
    Refresh_client_of_derived P k c tempo status d h⟩
  rw [Refresh_ret_of_derived P k c tempo status d h, herr]
  rfl

/-- Witness of C4 on `queryTempo` (Jaeger Query enabled) with a client that logs
each call and rejects it: the conflict is returned and the log holds the one
write. -/
theorem Refresh_patch_error_witness :
    (Refresh sampleParser (loggingClient _ (some "conflict")) [] queryTempo
        queryTempo.Status).ret = (true, some "conflict") ∧
    (Refresh sampleParser (loggingClient _ (some "conflict")) [] queryTempo
        queryTempo.Status).calls
      = [⟨{ queryTempo with
            Status := { queryTempo.Status with
              TempoVersion := "2.2.0", TempoQueryVersion := "2.1.1" } }, queryTempo⟩] ∧
    (Refresh sampleParser (loggingClient _ (some "conflict")) [] queryTempo
        queryTempo.Status).client
      = [⟨{ queryTempo with
            Status := { queryTempo.Status with
              TempoVersion := "2.2.0", TempoQueryVersion := "2.1.1" } }, queryTempo⟩] :=
  Refresh_patch_error sampleParser (loggingClient _ (some "conflict")) [] queryTempo
    queryTempo.Status
    { queryTempo.Status with TempoVersion := "2.2.0", TempoQueryVersion := "2.1.1" }
    "conflict" (by decide) (by decide)

end RefreshClaims


section RefreshFrame

variable {ε γ κ ρ σ : Type}

/-- C5: when the needed images parse, `Refresh` hands `PatchStatus` exactly one
object (the client is applied to it once, in the state `Refresh` was given, and
its answer decides the returned pair and the client state left behind) whose
`Status.TempoVersion` is the tag parsed from `Spec.Images.Tempo`; with Jaeger Query
enabled its `Status.TempoQueryVersion` is the tag parsed from
`Spec.Images.TempoQuery`; with Jaeger Query disabled only `Spec.Images.Tempo` is
handed to the parser (whatever `Spec.Images.TempoQuery` holds) and
`Status.TempoQueryVersion` is the one of the candidate `status`. -/
theorem Refresh_patched_versions (P : DockerParser ε γ)
    (k : StatusClient ε κ (Microservices ρ σ)) (c : κ)
    (tempo : Microservices ρ σ) (status : MicroservicesStatus σ) (t : γ)
    (hT : P.Parse tempo.Spec.Images.Tempo = .ok t)
    (hQ : tempo.Spec.Components.QueryFrontend.JaegerQuery.Enabled = true →
      ∃ q, P.Parse tempo.Spec.Images.TempoQuery = .ok q) :
    ∃ call, (Refresh P k c tempo status).calls = [call] ∧
      (Refresh P k c tempo status).client =
        (k.PatchStatus c call.changed call.original).2 ∧
      (Refresh P k c tempo status).ret =
        ((k.PatchStatus c call.changed call.original).1.isSome,
         (k.PatchStatus c call.changed call.original).1) ∧
      call.changed.Status.TempoVersion = P.Tag t ∧
      (tempo.Spec.Components.QueryFrontend.JaegerQuery.Enabled = true →
        ∀ q, P.Parse tempo.Spec.Images.TempoQuery = .ok q →
          call.changed.Status.TempoQueryVersion = P.Tag q) ∧
      (tempo.Spec.Components.QueryFrontend.JaegerQuery.Enabled = false →
        (Refresh P k c tempo status).parsed = [tempo.Spec.Images.Tempo] ∧
        call.changed.Status.TempoQueryVersion = status.TempoQueryVersion) := by
  cases hE : tempo.Spec.Components.QueryFrontend.JaegerQuery.Enabled with
  | false =>
    have hd : derivedStatus P tempo status = some { status with TempoVersion := P.Tag t } := by
      simp [derivedStatus, hT, hE]
    refine ⟨⟨{ tempo with Status := { status with TempoVersion := P.Tag t } }, tempo⟩,
      Refresh_calls_of_derived P k c tempo status _ hd,
      Refresh_client_of_derived P k c tempo status _ hd,
      Refresh_ret_of_derived P k c tempo status _ hd, rfl, ?_, ?_⟩
    · intro h; cases h
    · intro _
      exact ⟨Refresh_parsed_of_disabled P k c tempo status t hT hE, rfl⟩
  | true =>
    obtain ⟨q, hq⟩ := hQ hE
    have hd : derivedStatus P tempo status =
        some { status with TempoVersion := P.Tag t, TempoQueryVersion := P.Tag q } := by
      simp [derivedStatus, hT, hE, hq]
    refine ⟨⟨{ tempo with
        Status := { status with TempoVersion := P.Tag t, TempoQueryVersion := P.Tag q } },
      tempo⟩,
      Refresh_calls_of_derived P k c tempo status _ hd,
      Refresh_client_of_derived P k c tempo status _ hd,
      Refresh_ret_of_derived P k c tempo status _ hd, rfl, ?_, ?_⟩
    · intro _ q' hq'
      rw [hq] at hq'
      cases hq'
      rfl
    · intro h; cases h

/-- Witness of C5 with a client that logs each call: on `queryTempo` (Jaeger Query
enabled, both images well formed) and on `storedTempo` (Jaeger Query disabled, an
empty Tempo Query image). -/
theorem Refresh_patched_versions_witness :
    (∃ call, (Refresh sampleParser (loggingClient _ none) [] queryTempo
          queryTempo.Status).calls = [call] ∧
      (Refresh sampleParser (loggingClient _ none) [] queryTempo queryTempo.Status).client =
        ((loggingClient _ none).PatchStatus [] call.changed call.original).2 ∧
      (Refresh sampleParser (loggingClient _ none) [] queryTempo queryTempo.Status).ret =
        (((loggingClient _ none).PatchStatus [] call.changed call.original).1.isSome,
         ((loggingClient _ none).PatchStatus [] call.changed call.original).1) ∧
      call.changed.Status.TempoVersion = sampleParser.Tag "2.2.0" ∧
      (queryTempo.Spec.Components.QueryFrontend.JaegerQuery.Enabled = true →
        ∀ q, sampleParser.Parse queryTempo.Spec.Images.TempoQuery = .ok q →
          call.changed.Status.TempoQueryVersion = sampleParser.Tag q) ∧
      (queryTempo.Spec.Components.QueryFrontend.JaegerQuery.Enabled = false →
        (Refresh sampleParser (loggingClient _ none) [] queryTempo queryTempo.Status).parsed
          = [queryTempo.Spec.Images.Tempo] ∧
        call.changed.Status.TempoQueryVersion = queryTempo.Status.TempoQueryVersion)) ∧
    (∃ call, (Refresh sampleParser (loggingClient _ none) [] storedTempo
          storedTempo.Status).calls = [call] ∧
      (Refresh sampleParser (loggingClient _ none) [] storedTempo storedTempo.Status).client =
        ((loggingClient _ none).PatchStatus [] call.changed call.original).2 ∧
      (Refresh sampleParser (loggingClient _ none) [] storedTempo storedTempo.Status).ret =
        (((loggingClient _ none).PatchStatus [] call.changed call.original).1.isSome,
         ((loggingClient _ none).PatchStatus [] call.changed call.original).1) ∧
      call.changed.Status.TempoVersion = sampleParser.Tag "2.1.1" ∧
      (storedTempo.Spec.Components.QueryFrontend.JaegerQuery.Enabled = true →
        ∀ q, sampleParser.Parse storedTempo.Spec.Images.TempoQuery = .ok q →
          call.changed.Status.TempoQueryVersion = sampleParser.Tag q) ∧
      (storedTempo.Spec.Components.QueryFrontend.JaegerQuery.Enabled = false →
        (Refresh sampleParser (loggingClient _ none) [] storedTempo storedTempo.Status).parsed
          = [storedTempo.Spec.Images.Tempo] ∧
        call.changed.Status.TempoQueryVersion = storedTempo.Status.TempoQueryVersion)) :=
  ⟨Refresh_patched_versions sampleParser (loggingClient _ none) [] queryTempo
      queryTempo.Status "2.2.0" rfl (fun _ => ⟨"2.1.1", rfl⟩),
   Refresh_patched_versions sampleParser (loggingClient _ none) [] storedTempo
      storedTempo.Status "2.1.1" rfl (fun h => by cases h)⟩

/-- C6: `Refresh` calls `PatchStatus` at most once; in that call `original` is the
stored object `tempo` as received, and `changed` agrees with `tempo` on every
field outside `Status`, while its `Status` agrees with the candidate `status` on
every field but the derived versions (`TempoVersion`, and `TempoQueryVersion`
when Jaeger Query is enabled).  The caller's `tempo` and the pointee of `status`
hold on return the values they held on entry. -/
theorem Refresh_frame (P : DockerParser ε γ)
    (k : StatusClient ε κ (Microservices ρ σ)) (c : κ)
    (tempo : Microservices ρ σ) (status : MicroservicesStatus σ) :
    (Refresh P k c tempo status).calls.length ≤ 1 ∧
    (Refresh P k c tempo status).tempo = tempo ∧
    (Refresh P k c tempo status).status = status ∧
    ∀ call ∈ (Refresh P k c tempo status).calls,
      call.original = tempo ∧
      call.changed.Other = tempo.Other ∧
      call.changed.Spec = tempo.Spec ∧
      call.changed.Status.Rest = status.Rest ∧
      (tempo.Spec.Components.QueryFrontend.JaegerQuery.Enabled = false →
        call.changed.Status.TempoQueryVersion = status.TempoQueryVersion) := by
  have hframe : (Refresh P k c tempo status).tempo = tempo ∧
      (Refresh P k c tempo status).status = status := by
    unfold Refresh Microservices.DeepCopy
    cases P.Parse tempo.Spec.Images.Tempo with
    | error e => exact ⟨rfl, rfl⟩
    | ok t =>
      cases tempo.Spec.Components.QueryFrontend.JaegerQuery.Enabled with
      | false =>
        simp only [Bool.false_eq_true, if_false]
        split <;> exact ⟨rfl, rfl⟩
      | true =>
        simp only [if_true]
        cases P.Parse tempo.Spec.Images.TempoQuery with
        | error e => exact ⟨rfl, rfl⟩
        | ok q =>
          simp only
          split <;> exact ⟨rfl, rfl⟩
  cases hd : derivedStatus P tempo status with
  | none =>
    rw [Refresh_calls_of_not_derived P k c tempo status hd]
    exact ⟨by simp, hframe.1, hframe.2, fun call hcall => by cases hcall⟩
  | some d =>
    rw [Refresh_calls_of_derived P k c tempo status d hd]
    refine ⟨by simp, hframe.1, hframe.2, fun call hcall => ?_⟩
    have hcall' := List.mem_singleton.mp hcall
    subst hcall'
    refine ⟨rfl, rfl, rfl, ?_, ?_⟩
    · unfold derivedStatus at hd
      cases hT : P.Parse tempo.Spec.Images.Tempo with
      | error e => simp [hT] at hd
      | ok t =>
        cases hE : tempo.Spec.Components.QueryFrontend.JaegerQuery.Enabled with
        | false =>
          simp [hT, hE] at hd
          subst hd
          rfl
        | true =>
          cases hQ : P.Parse tempo.Spec.Images.TempoQuery with
          | error e => simp [hT, hE, hQ] at hd
          | ok q =>
            simp [hT, hE, hQ] at hd
            subst hd
            rfl
    · intro hE
      unfold derivedStatus at hd
      cases hT : P.Parse tempo.Spec.Images.Tempo with
      | error e => simp [hT] at hd
      | ok t =>
        simp [hT, hE] at hd
        subst hd
        rfl

/-- Witness of C6: the single call made on `staleTempo` satisfies the frame
conditions. -/
theorem Refresh_frame_witness :
    (Refresh sampleParser (okClient _) 0 staleTempo staleTempo.Status).tempo = staleTempo ∧
    (⟨{ staleTempo with Status := { staleTempo.Status with TempoVersion := "2.2.0" } },
        staleTempo⟩ : PatchCall (Microservices Unit Unit)).original = staleTempo :=
  ⟨(Refresh_frame sampleParser (okClient _) 0 staleTempo staleTempo.Status).2.1,
   ((Refresh_frame sampleParser (okClient _) 0 staleTempo staleTempo.Status).2.2.2
      ⟨{ staleTempo with Status := { staleTempo.Status with TempoVersion := "2.2.0" } },
        staleTempo⟩ (by decide)).1⟩

end RefreshFrame

end Status
end TempoOperator

namespace TempoOperator
namespace Webhooks

/-- The errors of `validateTempoMonolithic`, rule by rule in table order. -/
theorem validateTempoMonolithic_errors (cfg : ProjectConfig) (tempo : TempoMonolithic) :
    (validateTempoMonolithic cfg tempo).2.elems =
      (if ingressEnabled tempo.Spec && !jaegerUIEnabled tempo.Spec then
        [Invalid ingressEnabledPath true
          "Jaeger UI must be enabled to create an ingress for Jaeger UI"] else []) ++
      ((if routeEnabled tempo.Spec && !jaegerUIEnabled tempo.Spec then
        [Invalid routeEnabledPath true
          "Jaeger UI must be enabled to create a route for Jaeger UI"] else []) ++
      ((if routeEnabled tempo.Spec && jaegerUIEnabled tempo.Spec &&
          !cfg.Gates.OpenShift.OpenShiftRoute then
        [Invalid routeEnabledPath true
          "the openshiftRoute feature gate must be enabled to create a route for Jaeger UI"]
        else []) ++
      ((if serviceMonitorsEnabled tempo.Spec && !cfg.Gates.PrometheusOperator then
        [Invalid serviceMonitorsEnabledPath true
          "the prometheusOperator feature gate must be enabled to create ServiceMonitors for Tempo components"]
        else []) ++
      ((if prometheusRulesEnabled tempo.Spec && !cfg.Gates.PrometheusOperator then
        [Invalid prometheusRulesEnabledPath true
          "the prometheusOperator feature gate must be enabled to create PrometheusRules for Tempo components"]
        else []) ++
      ((if prometheusRulesEnabled tempo.Spec && cfg.Gates.PrometheusOperator &&
          !serviceMonitorsEnabled tempo.Spec then
        [Invalid prometheusRulesEnabledPath true
          "serviceMonitors must be enabled to create PrometheusRules (the rules alert based on collected metrics)"]
        else []) ++
      (if dataSourceEnabled tempo.Spec && !cfg.Gates.GrafanaOperator then
        [Invalid dataSourceEnabledPath true
          "the grafanaOperator feature gate must be enabled to create a data source for Tempo"]
        else [])))))) := by
  simp [validateTempoMonolithic, ruleTable, Rule.errors, Slice.elems]

/-- The warnings of `validateTempoMonolithic`: the `ExtraConfig` rule is the only
one that warns. -/
theorem validateTempoMonolithic_warnings (cfg : ProjectConfig) (tempo : TempoMonolithic) :
    (validateTempoMonolithic cfg tempo).1 =
      some (if tempo.Spec.ExtraConfig.isSome then [extraConfigWarning] else []) := by
  simp [validateTempoMonolithic, ruleTable, Rule.warnings]

/-- The error list of `validateTempoMonolithic` is never the nil slice. -/
theorem validateTempoMonolithic_errors_nonnil (cfg : ProjectConfig) (tempo : TempoMonolithic) :
    (validateTempoMonolithic cfg tempo).2 = some (validateTempoMonolithic cfg tempo).2.elems :=
  rfl

/-- C7: when a child of Jaeger UI (ingress, resp. route) is enabled while Jaeger UI
is disabled, then whatever the feature gates and the other fields are, the errors
of `validateTempoMonolithic` at the path of the child's `enabled` field
(`spec.jaegerui.ingress.enabled`, resp. `spec.jaegerui.route.enabled`) are exactly
one entry: invalid value `true` with the message "Jaeger UI must be enabled to
create an ingress for Jaeger UI" (resp. "... a route for Jaeger UI"); no other
rule, the openshiftRoute gate rule included, reports at that path. -/
theorem validateTempoMonolithic_child_without_parent (cfg : ProjectConfig)
    (tempo : TempoMonolithic) :
    (ingressEnabled tempo.Spec = true → jaegerUIEnabled tempo.Spec = false →
      (validateTempoMonolithic cfg tempo).2.elems.filter
          (fun e => e.Field = "spec.jaegerui.ingress.enabled")
        = [{ Type_ := .ErrorTypeInvalid, Field := "spec.jaegerui.ingress.enabled",
             BadValue := true,
             Detail := "Jaeger UI must be enabled to create an ingress for Jaeger UI" }]) ∧
    (routeEnabled tempo.Spec = true → jaegerUIEnabled tempo.Spec = false →
      (validateTempoMonolithic cfg tempo).2.elems.filter
          (fun e => e.Field = "spec.jaegerui.route.enabled")
        = [{ Type_ := .ErrorTypeInvalid, Field := "spec.jaegerui.route.enabled",
             BadValue := true,
             Detail := "Jaeger UI must be enabled to create a route for Jaeger UI" }]) := by
  rw [validateTempoMonolithic_errors]
  generalize ingressEnabled tempo.Spec = i
  generalize routeEnabled tempo.Spec = r
  generalize jaegerUIEnabled tempo.Spec = u
  generalize serviceMonitorsEnabled tempo.Spec = sm
  generalize prometheusRulesEnabled tempo.Spec = pr
  generalize dataSourceEnabled tempo.Spec = ds
  generalize cfg.Gates.OpenShift.OpenShiftRoute = g1
  generalize cfg.Gates.PrometheusOperator = g2
  generalize cfg.Gates.GrafanaOperator = g3
  revert i r u sm pr ds g1 g2 g3
  decide


/-- The model reproduces every row of the table of `TestMonolithicValidate`: the
expected warnings and errors, as non-nil slices. -/
theorem validateTempoMonolithic_test_table :
    -- valid instance
    validateTempoMonolithic {} { Name := "sample", Namespace := "default", Spec := {} }
      = (some [], some []) ∧
    -- JaegerUI ingress enabled but Jaeger UI disabled
    validateTempoMonolithic {}
        { Spec := { JaegerUI := some { Ingress := some { Enabled := true } } } }
      = (some [], some [Invalid ["spec", "jaegerui", "ingress", "enabled"] true
          "Jaeger UI must be enabled to create an ingress for Jaeger UI"]) ∧
    -- JaegerUI route enabled but Jaeger UI disabled
    validateTempoMonolithic {}
        { Spec := { JaegerUI := some { Route := some { Enabled := true } } } }
      = (some [], some [Invalid ["spec", "jaegerui", "route", "enabled"] true
          "Jaeger UI must be enabled to create a route for Jaeger UI"]) ∧
    -- JaegerUI route enabled but openShiftRoute feature gate not set
    validateTempoMonolithic { Gates := { OpenShift := { OpenShiftRoute := false } } }
        { Spec := { JaegerUI := some { Enabled := true, Route := some { Enabled := true } } } }
      = (some [], some [Invalid ["spec", "jaegerui", "route", "enabled"] true
          "the openshiftRoute feature gate must be enabled to create a route for Jaeger UI"]) ∧
    -- JaegerUI route enabled and openshiftRoute feature gate set
    validateTempoMonolithic { Gates := { OpenShift := { OpenShiftRoute := true } } }
        { Spec := { JaegerUI := some { Enabled := true, Route := some { Enabled := true } } } }
      = (some [], some []) ∧
    -- serviceMonitors enabled but prometheusOperator feature gate not set
    validateTempoMonolithic {}
        { Spec := { Observability := some { Metrics := some {
            ServiceMonitors := some { Enabled := true } } } } }
      = (some [], some [Invalid
          ["spec", "observability", "metrics", "serviceMonitors", "enabled"] true
          "the prometheusOperator feature gate must be enabled to create ServiceMonitors for Tempo components"]) ∧
    -- prometheusRules enabled but prometheusOperator feature gate not set
    validateTempoMonolithic {}
        { Spec := { Observability := some { Metrics := some {
            PrometheusRules := some { Enabled := true } } } } }
      = (some [], some [Invalid
          ["spec", "observability", "metrics", "prometheusRules", "enabled"] true
          "the prometheusOperator feature gate must be enabled to create PrometheusRules for Tempo components"]) ∧
    -- prometheusRules enabled but serviceMonitors disabled
    validateTempoMonolithic { Gates := { PrometheusOperator := true } }
        { Spec := { Observability := some { Metrics := some {
            PrometheusRules := some { Enabled := true } } } } }
      = (some [], some [Invalid
          ["spec", "observability", "metrics", "prometheusRules", "enabled"] true
          "serviceMonitors must be enabled to create PrometheusRules (the rules alert based on collected metrics)"]) ∧
    -- dataSource enabled but grafanaOperator feature gate not set
    validateTempoMonolithic {}
        { Spec := { Observability := some { Grafana := some {
            DataSource := some { Enabled := true } } } } }
      = (some [], some [Invalid
          ["spec", "observability", "grafana", "dataSource", "enabled"] true
          "the grafanaOperator feature gate must be enabled to create a data source for Tempo"]) ∧
    -- valid observability config
    validateTempoMonolithic { Gates := { PrometheusOperator := true, GrafanaOperator := true } }
        { Spec := { Observability := some {
            Metrics := some { ServiceMonitors := some { Enabled := true },
                              PrometheusRules := some { Enabled := true } },
            Grafana := some { DataSource := some { Enabled := true } } } } }
      = (some [], some []) ∧
    -- extra config warning
    validateTempoMonolithic {} { Spec := { ExtraConfig := some { Tempo := "\x7b\x7d" } } }
      = (some ["overriding Tempo configuration could potentially break the deployment, use it carefully"],
         some []) := by
  refine ⟨?_, ?_, ?_, ?_, ?_, ?_, ?_, ?_, ?_, ?_, ?_⟩ <;> decide


/-- Witness of C7 on the rows "JaegerUI ingress enabled but Jaeger UI disabled" and
"JaegerUI route enabled but Jaeger UI disabled" combined, with every gate off. -/
theorem validateTempoMonolithic_child_without_parent_witness :
    (validateTempoMonolithic {} { Spec := { JaegerUI := some {
          Ingress := some { Enabled := true }, Route := some { Enabled := true } } } }).2.elems.filter
        (fun e => e.Field = "spec.jaegerui.route.enabled")
      = [{ Type_ := .ErrorTypeInvalid, Field := "spec.jaegerui.route.enabled",
           BadValue := true,
           Detail := "Jaeger UI must be enabled to create a route for Jaeger UI" }] :=
  (validateTempoMonolithic_child_without_parent {} { Spec := { JaegerUI := some {
      Ingress := some { Enabled := true }, Route := some { Enabled := true } } } }).2
    (by decide) (by decide)

/-- C8: when a gated feature is enabled while its feature gate is off, the errors
of `validateTempoMonolithic` contain an entry at the path of that feature's
`enabled` field, with invalid value `true` and the message naming the gate: the
Jaeger UI route (Jaeger UI enabled) with openshiftRoute, serviceMonitors with
prometheusOperator, prometheusRules with prometheusOperator, the Grafana data
source with grafanaOperator. -/
theorem validateTempoMonolithic_gate_off (cfg : ProjectConfig) (tempo : TempoMonolithic) :
    (routeEnabled tempo.Spec = true → jaegerUIEnabled tempo.Spec = true →
      cfg.Gates.OpenShift.OpenShiftRoute = false →
      ({ Type_ := .ErrorTypeInvalid, Field := "spec.jaegerui.route.enabled", BadValue := true,
         Detail := "the openshiftRoute feature gate must be enabled to create a route for Jaeger UI" }
        : FieldError) ∈ (validateTempoMonolithic cfg tempo).2.elems) ∧
    (serviceMonitorsEnabled tempo.Spec = true → cfg.Gates.PrometheusOperator = false →
      ({ Type_ := .ErrorTypeInvalid,
         Field := "spec.observability.metrics.serviceMonitors.enabled", BadValue := true,
         Detail := "the prometheusOperator feature gate must be enabled to create ServiceMonitors for Tempo components" }
        : FieldError) ∈ (validateTempoMonolithic cfg tempo).2.elems) ∧
    (prometheusRulesEnabled tempo.Spec = true → cfg.Gates.PrometheusOperator = false →
      ({ Type_ := .ErrorTypeInvalid,
         Field := "spec.observability.metrics.prometheusRules.enabled", BadValue := true,
         Detail := "the prometheusOperator feature gate must be enabled to create PrometheusRules for Tempo components" }
        : FieldError) ∈ (validateTempoMonolithic cfg tempo).2.elems) ∧
    (dataSourceEnabled tempo.Spec = true → cfg.Gates.GrafanaOperator = false →
      ({ Type_ := .ErrorTypeInvalid,
         Field := "spec.observability.grafana.dataSource.enabled", BadValue := true,
         Detail := "the grafanaOperator feature gate must be enabled to create a data source for Tempo" }
        : FieldError) ∈ (validateTempoMonolithic cfg tempo).2.elems) := by
  rw [validateTempoMonolithic_errors]
  refine ⟨?_, ?_, ?_, ?_⟩ <;>
  generalize ingressEnabled tempo.Spec = i <;>
  generalize routeEnabled tempo.Spec = r <;>
  generalize jaegerUIEnabled tempo.Spec = u <;>
  generalize serviceMonitorsEnabled tempo.Spec = sm <;>
  generalize prometheusRulesEnabled tempo.Spec = pr <;>
  generalize dataSourceEnabled tempo.Spec = ds <;>
  generalize cfg.Gates.OpenShift.OpenShiftRoute = g1 <;>
  generalize cfg.Gates.PrometheusOperator = g2 <;>
  generalize cfg.Gates.GrafanaOperator = g3 <;>
  revert i r u sm pr ds g1 g2 g3 <;>
  decide

/-- Witness of C8 on a specification enabling serviceMonitors and prometheusRules
with the prometheusOperator gate off: the prometheusRules gate error is reported. -/
theorem validateTempoMonolithic_gate_off_witness :
    ({ Type_ := .ErrorTypeInvalid,
       Field := "spec.observability.metrics.prometheusRules.enabled", BadValue := true,
       Detail := "the prometheusOperator feature gate must be enabled to create PrometheusRules for Tempo components" }
      : FieldError) ∈ (validateTempoMonolithic {} { Spec := { Observability := some {
          Metrics := some { ServiceMonitors := some { Enabled := true },
                            PrometheusRules := some { Enabled := true } } } } }).2.elems :=
  (validateTempoMonolithic_gate_off {} { Spec := { Observability := some {
      Metrics := some { ServiceMonitors := some { Enabled := true },
                        PrometheusRules := some { Enabled := true } } } } }).2.2.1
    (by decide) (by decide)

/-- C9: whenever `ExtraConfig` is present, whatever the other fields and the
feature gates are, the warnings of `validateTempoMonolithic` contain "overriding
Tempo configuration could potentially break the deployment, use it carefully";
when nothing else is set the result is exactly that one warning and an empty
non-nil error list; and when `ExtraConfig` is absent the warning list is empty. -/
theorem validateTempoMonolithic_extraConfig (cfg : ProjectConfig) (tempo : TempoMonolithic) :
    (tempo.Spec.ExtraConfig.isSome = true →
      "overriding Tempo configuration could potentially break the deployment, use it carefully"
        ∈ (validateTempoMonolithic cfg tempo).1.elems) ∧
    (∀ (name ns : String) (x : ExtraConfigSpec),
      validateTempoMonolithic cfg
          { Name := name, Namespace := ns, Spec := { ExtraConfig := some x } }
        = (some ["overriding Tempo configuration could potentially break the deployment, use it carefully"],
           some [])) ∧
    (tempo.Spec.ExtraConfig = none → (validateTempoMonolithic cfg tempo).1 = some []) := by
  refine ⟨fun h => ?_, fun name ns x => ?_, fun h => ?_⟩
  · rw [validateTempoMonolithic_warnings, h]
    simp [Slice.elems, extraConfigWarning]
  · rfl
  · rw [validateTempoMonolithic_warnings, h]
    rfl

/-- Witness of C9 on a specification that sets `ExtraConfig` next to an enabled
route, with every gate off. -/
theorem validateTempoMonolithic_extraConfig_witness :
    "overriding Tempo configuration could potentially break the deployment, use it carefully"
      ∈ (validateTempoMonolithic {} { Spec := {
          JaegerUI := some { Route := some { Enabled := true } },
          ExtraConfig := some { Tempo := "\x7b\x7d" } } }).1.elems :=
  (validateTempoMonolithic_extraConfig {} { Spec := {
      JaegerUI := some { Route := some { Enabled := true } },
      ExtraConfig := some { Tempo := "\x7b\x7d" } } }).1 rfl

/-- C10: when every enabled feature has its parent enabled, its feature gate on and
its prerequisite sibling enabled (prometheusRules requires serviceMonitors),
`validateTempoMonolithic` returns an empty error list. -/
theorem validateTempoMonolithic_prerequisites_met (cfg : ProjectConfig)
    (tempo : TempoMonolithic) (h : prerequisitesMet cfg tempo.Spec) :
    (validateTempoMonolithic cfg tempo).2 = some [] := by
  rw [validateTempoMonolithic_errors_nonnil, validateTempoMonolithic_errors]
  unfold prerequisitesMet at h
  revert h
  generalize ingressEnabled tempo.Spec = i
  generalize routeEnabled tempo.Spec = r
  generalize jaegerUIEnabled tempo.Spec = u
  generalize serviceMonitorsEnabled tempo.Spec = sm
  generalize prometheusRulesEnabled tempo.Spec = pr
  generalize dataSourceEnabled tempo.Spec = ds
  generalize cfg.Gates.OpenShift.OpenShiftRoute = g1
  generalize cfg.Gates.PrometheusOperator = g2
  generalize cfg.Gates.GrafanaOperator = g3
  rintro ⟨h1, h2, h3, h4, h5⟩
  have e1 : (i && !u) = false := by
    cases i <;> cases u <;> simp_all
  have e2 : (r && !u) = false := by
    cases r <;> cases u <;> simp_all
  have e3 : (r && u && !g1) = false := by
    cases r <;> cases u <;> cases g1 <;> simp_all
  have e4 : (sm && !g2) = false := by
    cases sm <;> cases g2 <;> simp_all
  have e5 : (pr && !g2) = false := by
    cases pr <;> cases g2 <;> simp_all
  have e6 : (pr && g2 && !sm) = false := by
    cases pr <;> cases g2 <;> cases sm <;> simp_all
  have e7 : (ds && !g3) = false := by
    cases ds <;> cases g3 <;> simp_all
  rw [e1, e2, e3, e4, e5, e6, e7]
  rfl

/-- Witness of C10 on the three valid rows of the test table: the empty
specification, Jaeger UI with a route under the openshiftRoute gate, and
serviceMonitors, prometheusRules and the Grafana data source under the
prometheusOperator and grafanaOperator gates. -/
theorem validateTempoMonolithic_prerequisites_met_witness :
    (validateTempoMonolithic {} { Name := "sample", Namespace := "default", Spec := {} }).2
      = some [] ∧
    (validateTempoMonolithic { Gates := { OpenShift := { OpenShiftRoute := true } } }
      { Spec := { JaegerUI := some { Enabled := true, Route := some { Enabled := true } } } }).2
      = some [] ∧
    (validateTempoMonolithic
      { Gates := { PrometheusOperator := true, GrafanaOperator := true } }
      { Spec := { Observability := some {
          Metrics := some { ServiceMonitors := some { Enabled := true },
                            PrometheusRules := some { Enabled := true } },
          Grafana := some { DataSource := some { Enabled := true } } } } }).2
      = some [] :=
  ⟨validateTempoMonolithic_prerequisites_met _ _ (by decide),
   validateTempoMonolithic_prerequisites_met _ _ (by decide),
   validateTempoMonolithic_prerequisites_met _ _ (by decide)⟩

end Webhooks
end TempoOperator
